import Mathlib

/-!
Verification development for the AI Health Report Manager (src/proj.py).

Python strings are modelled as `List Char`; machine-level concerns (SQLite,
SMTP sockets, reportlab byte output) are abstracted exactly at the
boundaries the program itself treats as external collaborators.  Python
code that can raise is modelled with `Except Exn`, where an exception is
identified by its message; `try/except` blocks become `match` on the
`Except` value.
-/

/-- Exceptions are identified by their message text. -/
abbrev Exn : Type := List Char

/-- Shorthand turning a Lean string literal into the `List Char` model of a
Python string. -/
def str (s : String) : List Char := s.data

/-- Python truthiness of `os.getenv` results: `None` and the empty string are
falsy, every other string is truthy (used by `all([...])` in
`send_email_with_report`). -/
def pyTruthy : Option (List Char) → Bool
  | none => false
  | some s => !s.isEmpty

/-- The ASCII whitespace characters stripped by Python `str.strip()`
(space, tab, newline, carriage return, vertical tab, form feed). -/
def pyIsSpace (c : Char) : Bool :=
  c = ' ' || c = '\t' || c = '\n' || c = '\r' || c = '\x0b' || c = '\x0c'

/-- Python `str.strip()`: drop leading and trailing whitespace. -/
def pyStrip (l : List Char) : List Char :=
  ((l.dropWhile pyIsSpace).reverse.dropWhile pyIsSpace).reverse

/-- The ASCII uppercase letters, the alphabet referenced by the
no-uppercase invariant on stored email addresses. -/
def upperLetters : List Char :=
  ['A', 'B', 'C', 'D', 'E', 'F', 'G', 'H', 'I', 'J', 'K', 'L', 'M',
   'N', 'O', 'P', 'Q', 'R', 'S', 'T', 'U', 'V', 'W', 'X', 'Y', 'Z']

/-- The ASCII case table: each uppercase letter with its lowercase partner. -/
def lowerPairs : List (Char × Char) :=
  [('A', 'a'), ('B', 'b'), ('C', 'c'), ('D', 'd'), ('E', 'e'), ('F', 'f'),
   ('G', 'g'), ('H', 'h'), ('I', 'i'), ('J', 'j'), ('K', 'k'), ('L', 'l'),
   ('M', 'm'), ('N', 'n'), ('O', 'o'), ('P', 'p'), ('Q', 'q'), ('R', 'r'),
   ('S', 's'), ('T', 't'), ('U', 'u'), ('V', 'v'), ('W', 'w'), ('X', 'x'),
   ('Y', 'y'), ('Z', 'z')]

/-- Python `str.lower()` on one character, restricted to the ASCII letters
(the only case-carrying characters the program's data ever holds): each
uppercase letter maps to its lowercase partner, everything else is kept. -/
def pyLowerChar (c : Char) : Char :=
  match lowerPairs.find? (fun pr => pr.1 == c) with
  | some pr => pr.2
  | none => c

/-- Python `str.lower()` on a whole string. -/
def pyLower (l : List Char) : List Char := l.map pyLowerChar

/-- Python `text.split("\n\n")`: cut the string at every non-overlapping
occurrence of two consecutive newlines, leftmost first; the empty string
splits into one empty segment, exactly as in Python. -/
def pySplit2NL : List Char → List (List Char)
  | [] => [[]]
  | '\n' :: '\n' :: rest => [] :: pySplit2NL rest
  | c :: rest =>
    match pySplit2NL rest with
    | [] => [[c]]
    | s :: ss => (c :: s) :: ss

/-- One stored patient row (table `patients` of health_reports.db, minus the
surrogate autoincrement rowid, which the program never reads back). -/
structure Patient where
  patient_id : List Char
  name : List Char
  age : Int
  diagnosis : List Char
  email : List Char
  created_at : List Char
deriving DecidableEq

/-- One raw row of the uploaded spreadsheet (columns Patient ID, Name, Age,
Diagnosis, Email), after the `int(row[Age])` conversion already succeeded. -/
structure Row where
  pid : List Char
  name : List Char
  age : Int
  diag : List Char
  email : List Char
deriving DecidableEq

/-- The stored record built from one raw row by the loop body of
`insert_patient_data` (src/proj.py lines 77-87): every string field is
stripped, the email is additionally lowercased, and `created_at` is the
timestamp passed to this insertion. -/
def mkPatient (row : Row) (now : List Char) : Patient :=
  { patient_id := pyStrip row.pid
    name := pyStrip row.name
    age := row.age
    diagnosis := pyStrip row.diag
    email := pyLower (pyStrip row.email)
    created_at := now }

/-- SQLite `INSERT OR REPLACE` keyed on the unique `patient_id` column: the
conflicting stored row, if any, is deleted and the fresh row inserted. -/
def upsertRow (db : List Patient) (row : Row) (now : List Char) : List Patient :=
  db.filter (fun q => q.patient_id != pyStrip row.pid) ++ [mkPatient row now]

/-- `insert_patient_data` (src/proj.py lines 64-96): one shared
`current_timestamp` for the whole call, then the per-row upsert for each row
in order.  (The per-row `try/except` arm only fires for rows whose `Age`
fails `int()` or whose SQL binding fails; with typed rows every insert
succeeds, so the success/error counters are not modelled.) -/
def insert_patient_data (db : List Patient) (rows : List Row) (now : List Char) :
    List Patient :=
  rows.foldl (fun acc row => upsertRow acc row now) db

/-- Decimal rendering of an integer field, as Python f-string interpolation
of an `int` produces it. -/
def intStr (n : Int) : List Char := (toString n).data

/-- Behaviour of the external Gemini model object for one run: given the
prompt, `generate_content` either returns text or raises. -/
abbrev GenModel : Type := List Char → Except Exn (List Char)

/-- The fixed prompt template of `generate_ai_report` (src/proj.py lines
138-156) with the record fields interpolated. -/
def buildPrompt (p : Patient) : List Char :=
  str "\n    As a medical AI assistant, analyze the following patient data and provide a comprehensive health report:\n    \n    Patient Information:\n    - Name: "
    ++ p.name
    ++ str "\n    - Age: " ++ intStr p.age
    ++ str " years old\n    - Patient ID: " ++ p.patient_id
    ++ str "\n    - Diagnosis: " ++ p.diagnosis
    ++ str "\n    \n    Please provide:\n    1. A clear summary of the diagnosis\n    2. Potential health implications\n    3. General lifestyle recommendations\n    4. Follow-up care suggestions\n    5. Important precautions or warnings\n    \n    Keep the report professional, informative, and easy to understand for the patient.\n    Format the response as a coherent paragraph suitable for a medical report.\n    "

/-- `generate_ai_report` (src/proj.py lines 133-162).  `model` is `none` when
`GEMINI_API_KEY` is unset (`init_gemini` returned `None`).  The function is
total: an unconfigured service or a raising call both yield an in-band
explanatory string, never an exception. -/
def generate_ai_report (p : Patient) (model : Option GenModel) : List Char :=
  match model with
  | none => str "AI service unavailable. Please configure GEMINI_API_KEY in your .env file."
  | some m =>
    match m (buildPrompt p) with
    | Except.ok t => t
    | Except.error e => str "Error generating AI report: " ++ e

/-- One typed content block handed to the document renderer library,
distinguished by the style the source attaches: `title` is the Paragraph in
`title_style`, `heading` in `heading_style`, `para` a narrative Paragraph in
the Normal style, `footer` the Paragraph in `footer_style`. -/
inductive Block where
  | title (text : List Char)
  | heading (text : List Char)
  | table (rows : List (List Char × List Char))
  | para (text : List Char)
  | spacer
  | footer (text : List Char)
deriving DecidableEq

/-- Whether a block is a narrative paragraph block (style Normal). -/
def isParaBlock : Block → Bool
  | Block.para _ => true
  | _ => false

/-- The narrative body loop of `create_pdf_report` (src/proj.py lines
228-232): for each segment of the already-split report, append one stripped
Paragraph plus a Spacer when the segment strips to non-empty, else nothing. -/
def narrativeBlocks : List (List Char) → List Block
  | [] => []
  | s :: rest =>
    if (pyStrip s).isEmpty then narrativeBlocks rest
    else Block.para (pyStrip s) :: Block.spacer :: narrativeBlocks rest

/-- `create_pdf_report` (src/proj.py lines 165-253), modelled up to the
renderer library: the ordered story of typed blocks the source hands to
`doc.build`.  `now` stands for the `datetime.now()` report-date string.  The
function is total in the record and in every narrative text, including the
empty string. -/
def create_pdf_report (p : Patient) (ai_report : List Char) (now : List Char) :
    List Block :=
  [Block.title (str "HEALTH REPORT"), Block.spacer,
   Block.heading (str "Patient Information"),
   Block.table
     [(str "Patient ID:", p.patient_id),
      (str "Name:", p.name),
      (str "Age:", intStr p.age ++ str " years"),
      (str "Email:", p.email),
      (str "Diagnosis:", p.diagnosis),
      (str "Report Date:", now)],
   Block.spacer,
   Block.heading (str "Medical Analysis & Recommendations")]
  ++ narrativeBlocks (pySplit2NL ai_report)
  ++ [Block.spacer,
      Block.footer (str "This report was generated by AI Health Report Manager. Please consult with your healthcare provider for professional medical advice.")]

/-- All decompositions of a list into a prefix and a suffix, in order. -/
def splits : List Char → List (List Char × List Char)
  | [] => [([], [])]
  | c :: t => ([], c :: t) :: (splits t).map (fun pr => (c :: pr.1, pr.2))

/-- ASCII letter test, the `[a-zA-Z]` character class. -/
def asciiAlpha (c : Char) : Bool :=
  ('a' ≤ c && c ≤ 'z') || ('A' ≤ c && c ≤ 'Z')

/-- The `[a-zA-Z0-9._%+-]` character class of the local part. -/
def emailLocalChar (c : Char) : Bool :=
  asciiAlpha c || ('0' ≤ c && c ≤ '9')
    || c = '.' || c = '_' || c = '%' || c = '+' || c = '-'

/-- The `[a-zA-Z0-9.-]` character class of the domain part. -/
def emailDomainChar (c : Char) : Bool :=
  asciiAlpha c || ('0' ≤ c && c ≤ '9') || c = '.' || c = '-'

/-- `validate_email` (src/proj.py lines 256-259): whether the regex
`[a-zA-Z0-9._%+-]+@[a-zA-Z0-9.-]+\.[a-zA-Z]\x7b2,\x7d` matches the whole
string, i.e. some decomposition `local ++ [at] ++ domain ++ [dot] ++ tld`
satisfies the class and length constraints.  Backtracking match success is
exactly the existence of such a decomposition. -/
def validate_email (e : List Char) : Bool :=
  (splits e).any fun pr =>
    !pr.1.isEmpty && pr.1.all emailLocalChar &&
      (match pr.2 with
       | '@' :: rest =>
         (splits rest).any fun qr =>
           !qr.1.isEmpty && qr.1.all emailDomainChar &&
             (match qr.2 with
              | '.' :: tld => decide (2 ≤ tld.length) && tld.all asciiAlpha
              | _ => false)
       | _ => false)

/-- Transport configuration read from the environment by
`send_email_with_report`: server and port as resolved (with their defaults),
credentials as raw `os.getenv` results. -/
structure Env where
  smtp_server : List Char
  smtp_port : Int
  sender_email : Option (List Char)
  sender_password : Option (List Char)
deriving DecidableEq

/-- `send_email_with_report` (src/proj.py lines 261-318), with `net` the
behaviour of the SMTP connect/starttls/login/send sequence for this call
(the body of the `try`).  Order is as in the source: the credentials check
precedes the email-format check, and both precede any network action, so the
result in those two cases does not depend on `net` at all.  The unused
`pdfBuf` parameter mirrors the attached document. -/
def send_email_with_report (env : Env) (net : Except Exn Unit) (p : Patient)
    (pdfBuf : List Block) : Bool × List Char :=
  if pyTruthy env.sender_email && pyTruthy env.sender_password then
    if validate_email p.email then
      match net with
      | Except.ok _ => (true, str "Email sent successfully")
      | Except.error e => (false, str "Error sending email: " ++ e)
    else (false, str "Invalid email format")
  else (false, str "Email credentials not configured in .env file")

/-- Observable events of one batch run: the per-record status message
(`status_text.text`, start of the iteration), the rate-limit delay
(`time.sleep(1)`), and the progress update (`progress_bar.progress` with
completed count over total, end of the iteration). -/
inductive Ev where
  | status (name : List Char) (idx total : Nat)
  | slept
  | progress (idx total : Nat)
deriving DecidableEq

/-- Accumulated state of one `send_bulk_reports` run: the success and error
counters, the ordered failure list, and the event trace. -/
structure BState where
  succ : Nat
  err : Nat
  errors : List (List Char)
  trace : List Ev
deriving DecidableEq

/-- The body of the `try` in one batch iteration (src/proj.py lines 841-849)
and likewise in `send_individual_report` (lines 883-891): generate the
narrative, render the document, attempt delivery; any stage raising
propagates to the enclosing `except`.  The three stages are the pipeline
calls, taken as parameters so every external behaviour (including raising)
is covered. -/
def tryBody {Doc : Type} (g : Patient → Except Exn (List Char))
    (r : Patient → List Char → Except Exn Doc)
    (d : Patient → Doc → Except Exn (Bool × List Char))
    (p : Patient) : Except Exn (Bool × List Char) := do
  let ai ← g p
  let doc ← r p ai
  d p doc

/-- One iteration of the loop of `send_bulk_reports` (src/proj.py lines
838-865): status message, then the guarded attempt — on a returned result
classify into the counters (appending `name: message` on failure) and apply
the inter-item delay, on an exception count the failure with the caught
message and skip the delay — then the progress update, always. -/
def stepRecord {Doc : Type} (g : Patient → Except Exn (List Char))
    (r : Patient → List Char → Except Exn Doc)
    (d : Patient → Doc → Except Exn (Bool × List Char))
    (total idx : Nat) (p : Patient) (s : BState) : BState :=
  match tryBody g r d p with
  | Except.ok (true, _) =>
    { succ := s.succ + 1, err := s.err, errors := s.errors,
      trace := s.trace ++ [Ev.status p.name (idx + 1) total, Ev.slept,
        Ev.progress (idx + 1) total] }
  | Except.ok (false, m) =>
    { succ := s.succ, err := s.err + 1,
      errors := s.errors ++ [p.name ++ str ": " ++ m],
      trace := s.trace ++ [Ev.status p.name (idx + 1) total, Ev.slept,
        Ev.progress (idx + 1) total] }
  | Except.error e =>
    { succ := s.succ, err := s.err + 1,
      errors := s.errors ++ [p.name ++ str ": " ++ e],
      trace := s.trace ++ [Ev.status p.name (idx + 1) total,
        Ev.progress (idx + 1) total] }

/-- The events one iteration appends to the trace. -/
def recordTrace {Doc : Type} (g : Patient → Except Exn (List Char))
    (r : Patient → List Char → Except Exn Doc)
    (d : Patient → Doc → Except Exn (Bool × List Char))
    (total idx : Nat) (p : Patient) : List Ev :=
  [Ev.status p.name (idx + 1) total]
    ++ (match tryBody g r d p with
        | Except.error _ => []
        | Except.ok _ => [Ev.slept])
    ++ [Ev.progress (idx + 1) total]

/-- The per-iteration trace segments of a run, in record order. -/
def segmentsOf {Doc : Type} (g : Patient → Except Exn (List Char))
    (r : Patient → List Char → Except Exn Doc)
    (d : Patient → Doc → Except Exn (Bool × List Char))
    (total : Nat) : Nat → List Patient → List (List Ev)
  | _, [] => []
  | idx, p :: ps => recordTrace g r d total idx p :: segmentsOf g r d total (idx + 1) ps

/-- The enumerated loop of `send_bulk_reports`, folding `stepRecord` over
the records with their indices. -/
def runBatchAux {Doc : Type} (g : Patient → Except Exn (List Char))
    (r : Patient → List Char → Except Exn Doc)
    (d : Patient → Doc → Except Exn (Bool × List Char))
    (total : Nat) : Nat → List Patient → BState → BState
  | _, [], s => s
  | idx, p :: ps, s => runBatchAux g r d total (idx + 1) ps (stepRecord g r d total idx p s)

/-- `send_bulk_reports` (src/proj.py lines 820-878) over the already-selected
records `ps`: counters and failure list start empty, `total = len(ps)`, and
the loop runs every record in order. -/
def send_bulk_reports {Doc : Type} (g : Patient → Except Exn (List Char))
    (r : Patient → List Char → Except Exn Doc)
    (d : Patient → Doc → Except Exn (Bool × List Char))
    (ps : List Patient) : BState :=
  runBatchAux g r d ps.length 0 ps { succ := 0, err := 0, errors := [], trace := [] }

/-- `send_individual_report` (src/proj.py lines 880-899): the same guarded
attempt for exactly one record, with the displayed outcome message as
result — success, reported delivery failure, or caught exception. -/
def send_individual_report {Doc : Type} (g : Patient → Except Exn (List Char))
    (r : Patient → List Char → Except Exn Doc)
    (d : Patient → Doc → Except Exn (Bool × List Char))
    (p : Patient) : List Char :=
  match tryBody g r d p with
  | Except.ok (true, _) => str "✅ Report sent successfully to " ++ p.name
  | Except.ok (false, m) =>
    str "❌ Failed to send report to " ++ p.name ++ str ": " ++ m
  | Except.error e =>
    str "❌ Error sending report to " ++ p.name ++ str ": " ++ e

/-- Whether the guarded attempt for `p` ends in a delivered report. -/
def okTrueB {Doc : Type} (g : Patient → Except Exn (List Char))
    (r : Patient → List Char → Except Exn Doc)
    (d : Patient → Doc → Except Exn (Bool × List Char))
    (p : Patient) : Bool :=
  match tryBody g r d p with
  | Except.ok (true, _) => true
  | _ => false

/-- Whether delivery itself returned `(False, reason)` for `p` (as opposed
to succeeding or to some stage raising). -/
def deliveryFailedB {Doc : Type} (g : Patient → Except Exn (List Char))
    (r : Patient → List Char → Except Exn Doc)
    (d : Patient → Doc → Except Exn (Bool × List Char))
    (p : Patient) : Bool :=
  match tryBody g r d p with
  | Except.ok (false, _) => true
  | _ => false

/-- The failure-list entry the loop appends for `p`, when any. -/
def failEntry {Doc : Type} (g : Patient → Except Exn (List Char))
    (r : Patient → List Char → Except Exn Doc)
    (d : Patient → Doc → Except Exn (Bool × List Char))
    (p : Patient) : Option (List Char) :=
  match tryBody g r d p with
  | Except.ok (true, _) => none
  | Except.ok (false, m) => some (p.name ++ str ": " ++ m)
  | Except.error e => some (p.name ++ str ": " ++ e)

/-- A string with no leading whitespace character. -/
def noLeadWS (l : List Char) : Prop :=
  ∀ c, l.head? = some c → pyIsSpace c = false

/-- A string with no trailing whitespace character. -/
def noTrailWS (l : List Char) : Prop :=
  ∀ c, l.getLast? = some c → pyIsSpace c = false

/-- Whether an event is a progress-bar update. -/
def isProgEv : Ev → Bool
  | Ev.progress _ _ => true
  | _ => false

/-- Fixture: a stored record with a well-formed email. -/
def pJane : Patient :=
  { patient_id := str "P1", name := str "Jane Doe", age := 34,
    diagnosis := str "Hypertension", email := str "jane@example.com",
    created_at := str "2024-01-01 10:00:00" }

/-- Fixture: a second stored record. -/
def pBob : Patient :=
  { patient_id := str "P2", name := str "Bob Roe", age := 51,
    diagnosis := str "Diabetes", email := str "bob@example.com",
    created_at := str "2024-01-02 10:00:00" }

/-- Fixture: a third stored record. -/
def pCara : Patient :=
  { patient_id := str "P3", name := str "Cara Lin", age := 42,
    diagnosis := str "Asthma", email := str "cara@example.com",
    created_at := str "2024-01-03 10:00:00" }

/-- Fixture: a record whose email fails the format predicate. -/
def pBadEmail : Patient :=
  { patient_id := str "P4", name := str "Dan Poe", age := 29,
    diagnosis := str "Flu", email := str "not-an-email",
    created_at := str "2024-01-04 10:00:00" }

/-- Fixture: a spreadsheet row carrying id P1. -/
def rowJane1 : Row :=
  { pid := str "P1", name := str "Jane Doe", age := 34,
    diag := str "Hypertension", email := str "jane@example.com" }

/-- Fixture: a second row for the same id P1 with different field values. -/
def rowJane2 : Row :=
  { pid := str " P1 ", name := str "Jane D. Roe", age := 35,
    diag := str "Hypertension II", email := str "JANE@example.com" }

/-- Fixture: generation behaviour that always returns text. -/
def genOk : Patient → Except Exn (List Char) :=
  fun _ => Except.ok (str "All good.")

/-- Fixture: rendering behaviour that always returns a document. -/
def renderOk : Patient → List Char → Except Exn Unit :=
  fun _ _ => Except.ok ()

/-- Fixture: rendering behaviour that raises for record P1 only. -/
def renderBoom : Patient → List Char → Except Exn Unit :=
  fun p _ => if p.patient_id = str "P1" then Except.error (str "render failure")
    else Except.ok ()

/-- Fixture: delivery behaviour that always succeeds. -/
def deliverOk : Patient → Unit → Except Exn (Bool × List Char) :=
  fun _ _ => Except.ok (true, str "Email sent successfully")

/-- Fixture: delivery behaviour returning a failure for record P2 only. -/
def deliverMixed : Patient → Unit → Except Exn (Bool × List Char) :=
  fun p _ => if p.patient_id = str "P2" then Except.ok (false, str "Invalid email format")
    else Except.ok (true, str "Email sent successfully")

/-- Fixture: transport environment with no credentials configured. -/
def envNoCreds : Env :=
  { smtp_server := str "smtp.gmail.com", smtp_port := 587,
    sender_email := none, sender_password := none }

/-- Fixture: transport environment with credentials configured. -/
def envCreds : Env :=
  { smtp_server := str "smtp.gmail.com", smtp_port := 587,
    sender_email := some (str "sender@example.com"),
    sender_password := some (str "hunter2hunter") }

/-- Closed form of the batch loop: starting from state `s`, the run adds one
success per delivered record, one error per undelivered record (returned
failure or caught exception), appends the failure entries in record order,
and appends the per-iteration trace segments. -/
theorem runBatchAux_spec {Doc : Type} (g : Patient → Except Exn (List Char))
    (r : Patient → List Char → Except Exn Doc)
    (d : Patient → Doc → Except Exn (Bool × List Char))
    (total : Nat) :
    ∀ (ps : List Patient) (idx : Nat) (s : BState),
      runBatchAux g r d total idx ps s =
        { succ := s.succ + ps.countP (okTrueB g r d),
          err := s.err + ps.countP (fun p => !okTrueB g r d p),
          errors := s.errors ++ ps.filterMap (failEntry g r d),
          trace := s.trace ++ (segmentsOf g r d total idx ps).flatten } := by
  intro ps
  induction ps with
  | nil => intro idx s; simp [runBatchAux, segmentsOf]
  | cons p ps ih =>
    intro idx s
    rw [runBatchAux, ih]
    rcases h : tryBody g r d p with e | ⟨b, m⟩
    · simp [stepRecord, okTrueB, failEntry, recordTrace, segmentsOf, h,
        List.countP_cons, List.filterMap_cons, BState.mk.injEq]
      omega
    · cases b
      · simp [stepRecord, okTrueB, failEntry, recordTrace, segmentsOf, h,
          List.countP_cons, List.filterMap_cons, BState.mk.injEq]
        omega
      · simp [stepRecord, okTrueB, failEntry, recordTrace, segmentsOf, h,
          List.countP_cons, List.filterMap_cons, BState.mk.injEq]
        omega

theorem dropWhile_head?_not (p : Char → Bool) (l : List Char) (c : Char)
    (h : (l.dropWhile p).head? = some c) : p c = false := by
  induction l with
  | nil => simp [List.dropWhile] at h
  | cons a t ih =>
    by_cases ha : p a
    · rw [List.dropWhile_cons_of_pos ha] at h
      exact ih h
    · rw [List.dropWhile_cons_of_neg ha] at h
      simp at h
      subst h
      simpa using ha

theorem dropWhile_getLast? (p : Char → Bool) (l : List Char) :
    l.dropWhile p = [] ∨ (l.dropWhile p).getLast? = l.getLast? := by
  induction l with
  | nil => left; rfl
  | cons a t ih =>
    by_cases ha : p a
    · rw [List.dropWhile_cons_of_pos ha]
      rcases ih with h0 | h1
      · left; exact h0
      · cases t with
        | nil => left; rfl
        | cons b t2 =>
          right
          rw [h1, List.getLast?_cons_cons]
    · rw [List.dropWhile_cons_of_neg ha]
      right; rfl

theorem pyStrip_noLead (l : List Char) : noLeadWS (pyStrip l) := by
  intro c hc
  unfold pyStrip at hc
  rw [List.head?_reverse] at hc
  rcases dropWhile_getLast? pyIsSpace (l.dropWhile pyIsSpace).reverse with h0 | h1
  · rw [h0] at hc; simp at hc
  · rw [h1, List.getLast?_reverse] at hc
    exact dropWhile_head?_not pyIsSpace l c hc

theorem pyStrip_noTrail (l : List Char) : noTrailWS (pyStrip l) := by
  intro c hc
  unfold pyStrip at hc
  rw [List.getLast?_reverse] at hc
  exact dropWhile_head?_not pyIsSpace (l.dropWhile pyIsSpace).reverse c hc

theorem pyLowerChar_not_upper (c : Char) : pyLowerChar c ∉ upperLetters := by
  cases h : lowerPairs.find? (fun pr => pr.1 == c) with
  | none =>
    simp only [pyLowerChar, h]
    intro hm
    have hfst : c ∈ lowerPairs.map Prod.fst := by
      rw [show lowerPairs.map Prod.fst = upperLetters from by decide]
      exact hm
    rcases List.mem_map.mp hfst with ⟨pr, hpr, he⟩
    have h2 := List.find?_eq_none.mp h pr hpr
    simp [he] at h2
  | some pr =>
    simp only [pyLowerChar, h]
    have hall : ∀ q ∈ lowerPairs, q.2 ∉ upperLetters := by decide
    exact hall pr (List.mem_of_find?_eq_some h)

theorem pyLowerChar_not_space (c : Char) (h : pyIsSpace c = false) :
    pyIsSpace (pyLowerChar c) = false := by
  cases hf : lowerPairs.find? (fun pr => pr.1 == c) with
  | none => simp only [pyLowerChar, hf]; exact h
  | some pr =>
    simp only [pyLowerChar, hf]
    have hall : ∀ q ∈ lowerPairs, pyIsSpace q.2 = false := by decide
    exact hall pr (List.mem_of_find?_eq_some hf)

theorem pyLower_noLead (l : List Char) (h : noLeadWS l) : noLeadWS (pyLower l) := by
  intro c hc
  rw [pyLower, List.head?_map] at hc
  cases hh : l.head? with
  | none => rw [hh] at hc; simp at hc
  | some a =>
    rw [hh] at hc
    simp at hc
    subst hc
    exact pyLowerChar_not_space a (h a hh)

theorem pyLower_noTrail (l : List Char) (h : noTrailWS l) : noTrailWS (pyLower l) := by
  intro c hc
  rw [pyLower, List.getLast?_map] at hc
  cases hh : l.getLast? with
  | none => rw [hh] at hc; simp at hc
  | some a =>
    rw [hh] at hc
    simp at hc
    subst hc
    exact pyLowerChar_not_space a (h a hh)

theorem pyLower_not_upper (l : List Char) (c : Char) (hc : c ∈ pyLower l) :
    c ∉ upperLetters := by
  rcases List.mem_map.mp hc with ⟨a, _, he⟩
  subst he
  exact pyLowerChar_not_upper a

theorem countP_add_countP_not {α : Type} (p : α → Bool) (l : List α) :
    l.countP p + l.countP (fun a => !p a) = l.length := by
  induction l with
  | nil => simp
  | cons a t ih =>
    rw [List.countP_cons, List.countP_cons, List.length_cons]
    cases h : p a <;> simp [h] <;> omega

theorem length_filterMap_failEntry {Doc : Type} (g : Patient → Except Exn (List Char))
    (r : Patient → List Char → Except Exn Doc)
    (d : Patient → Doc → Except Exn (Bool × List Char)) (ps : List Patient) :
    (ps.filterMap (failEntry g r d)).length = ps.countP (fun p => !okTrueB g r d p) := by
  induction ps with
  | nil => rfl
  | cons p t ih =>
    rw [List.filterMap_cons, List.countP_cons]
    rcases h : tryBody g r d p with e | ⟨b, m⟩
    · simp [failEntry, okTrueB, h, ih]
    · cases b <;> simp [failEntry, okTrueB, h, ih]

theorem filter_recordTrace_progress {Doc : Type} (g : Patient → Except Exn (List Char))
    (r : Patient → List Char → Except Exn Doc)
    (d : Patient → Doc → Except Exn (Bool × List Char))
    (total idx : Nat) (p : Patient) :
    (recordTrace g r d total idx p).filter isProgEv = [Ev.progress (idx + 1) total] := by
  rcases h : tryBody g r d p with e | v <;> simp [recordTrace, isProgEv, h]

theorem segments_filter_progress {Doc : Type} (g : Patient → Except Exn (List Char))
    (r : Patient → List Char → Except Exn Doc)
    (d : Patient → Doc → Except Exn (Bool × List Char)) (total : Nat) :
    ∀ (ps : List Patient) (idx : Nat),
      ((segmentsOf g r d total idx ps).flatten.filter isProgEv)
        = (List.range ps.length).map (fun i => Ev.progress (idx + 1 + i) total) := by
  intro ps
  induction ps with
  | nil => intro idx; simp [segmentsOf]
  | cons p t ih =>
    intro idx
    rw [segmentsOf, List.flatten_cons, List.filter_append,
      filter_recordTrace_progress, ih, List.length_cons,
      List.range_succ_eq_map, List.map_cons, List.map_map]
    have hf : ((fun i => Ev.progress (idx + 1 + i) total) ∘ Nat.succ)
        = fun i => Ev.progress (idx + 1 + 1 + i) total := by
      funext i
      simp only [Function.comp]
      congr 1
      omega
    rw [hf]
    simp

theorem send_bulk_reports_spec {Doc : Type} (g : Patient → Except Exn (List Char))
    (r : Patient → List Char → Except Exn Doc)
    (d : Patient → Doc → Except Exn (Bool × List Char)) (ps : List Patient) :
    send_bulk_reports g r d ps =
      { succ := ps.countP (okTrueB g r d),
        err := ps.countP (fun p => !okTrueB g r d p),
        errors := ps.filterMap (failEntry g r d),
        trace := (segmentsOf g r d ps.length 0 ps).flatten } := by
  rw [send_bulk_reports, runBatchAux_spec]
  simp

/-- Claim C1, counterexample to the claim as stated: upserting id P1 twice
with different field values and different insertion timestamps leaves exactly
one stored record under P1, but its `created_at` is the SECOND timestamp,
not the first — `INSERT OR REPLACE` passes a fresh `current_timestamp`
explicitly, so `created_at` is overwritten. -/
theorem upsert_overwrites_created_at_cex :
    ((upsertRow (upsertRow [] rowJane1 (str "2024-01-01 10:00:00"))
        rowJane2 (str "2024-02-02 11:00:00")).filter
      (fun q => q.patient_id == str "P1")).map Patient.created_at
      = [str "2024-02-02 11:00:00"]
    ∧ str "2024-02-02 11:00:00" ≠ str "2024-01-01 10:00:00"
    ∧ rowJane1.name ≠ rowJane2.name := by
  decide

/-- Claim C1 (amended): re-upserting a record under an already stored id
leaves exactly one stored record under that id, carrying the new name, age,
diagnosis and email — and its `created_at` equal to the LATEST insertion's
timestamp (the source overwrites `created_at` on re-upsert). -/
theorem upsert_latest_wins (db : List Patient) (r1 r2 : Row) (t1 t2 : List Char)
    (h : pyStrip r1.pid = pyStrip r2.pid) :
    (upsertRow (upsertRow db r1 t1) r2 t2).filter
        (fun q => q.patient_id == pyStrip r1.pid)
      = [mkPatient r2 t2] := by
  rw [h]
  unfold upsertRow
  rw [List.filter_append, List.filter_filter]
  have h1 : ∀ q : Patient,
      ((q.patient_id == pyStrip r2.pid) && (q.patient_id != pyStrip r2.pid)) = false := by
    intro q
    cases hq : q.patient_id == pyStrip r2.pid <;> simp [bne, hq]
  have h2 : (List.filter
      (fun q => (q.patient_id == pyStrip r2.pid) && (q.patient_id != pyStrip r2.pid))
      (db.filter (fun q => q.patient_id != pyStrip r1.pid) ++ [mkPatient r1 t1])) = [] := by
    rw [List.filter_eq_nil_iff]
    intro a _
    simp [h1 a]
  rw [h2]
  simp [mkPatient]

/-- Witness for `upsert_latest_wins` at a concrete input: rows rowJane1 and
rowJane2 share the stripped id P1. -/
theorem upsert_latest_wins_witness :
    pyStrip rowJane1.pid = pyStrip rowJane2.pid
    ∧ (upsertRow (upsertRow [] rowJane1 (str "2024-01-01 10:00:00"))
          rowJane2 (str "2024-02-02 11:00:00")).filter
        (fun q => q.patient_id == pyStrip rowJane1.pid)
      = [mkPatient rowJane2 (str "2024-02-02 11:00:00")] :=
  ⟨by decide,
   upsert_latest_wins [] rowJane1 rowJane2
     (str "2024-01-01 10:00:00") (str "2024-02-02 11:00:00") (by decide)⟩

/-- Claim C10: every record stored through the ingestion path has its id,
name, diagnosis and email stripped of surrounding whitespace and its email
lowercased: the stored email holds no uppercase ASCII letter and no leading
or trailing whitespace, and the other string fields no leading or trailing
whitespace either.  The first conjunct pins the ingested record inside the
`upsertRow` result. -/
theorem ingest_normalizes_fields (db : List Patient) (row : Row) (now : List Char) :
    upsertRow db row now
      = db.filter (fun q => q.patient_id != pyStrip row.pid) ++ [mkPatient row now]
    ∧ noLeadWS (mkPatient row now).patient_id ∧ noTrailWS (mkPatient row now).patient_id
    ∧ noLeadWS (mkPatient row now).name ∧ noTrailWS (mkPatient row now).name
    ∧ noLeadWS (mkPatient row now).diagnosis ∧ noTrailWS (mkPatient row now).diagnosis
    ∧ noLeadWS (mkPatient row now).email ∧ noTrailWS (mkPatient row now).email
    ∧ (mkPatient row now).email = pyLower (pyStrip row.email)
    ∧ ∀ c ∈ (mkPatient row now).email, c ∉ upperLetters := by
  refine ⟨rfl, ?_, ?_, ?_, ?_, ?_, ?_, ?_, ?_, rfl, ?_⟩
  · exact pyStrip_noLead row.pid
  · exact pyStrip_noTrail row.pid
  · exact pyStrip_noLead row.name
  · exact pyStrip_noTrail row.name
  · exact pyStrip_noLead row.diag
  · exact pyStrip_noTrail row.diag
  · exact pyLower_noLead (pyStrip row.email) (pyStrip_noLead row.email)
  · exact pyLower_noTrail (pyStrip row.email) (pyStrip_noTrail row.email)
  · intro c hc
    exact pyLower_not_upper (pyStrip row.email) c hc

/-- Claim C4, counterexample to the claim as stated: with credentials unset
the function does return a `(false, reason)` failure before any network
action, but the reason string is the source's literal
"Email credentials not configured in .env file", not the claimed
"credentials not configured"; the record used is fully valid. -/
theorem creds_message_cex :
    send_email_with_report envNoCreds (Except.ok ()) pJane []
      = (false, str "Email credentials not configured in .env file")
    ∧ str "Email credentials not configured in .env file"
        ≠ str "credentials not configured"
    ∧ validate_email pJane.email = true := by
  decide

/-- Claim C4 (amended): whenever the transport credentials are unset (falsy),
`send_email_with_report` returns
`(false, "Email credentials not configured in .env file")` for every record —
regardless of the record's validity and independently of the network
behaviour `net`, so no network action can influence the result. -/
theorem creds_unset_no_send (env : Env) (net : Except Exn Unit) (p : Patient)
    (pdfBuf : List Block)
    (h : (pyTruthy env.sender_email && pyTruthy env.sender_password) = false) :
    send_email_with_report env net p pdfBuf
      = (false, str "Email credentials not configured in .env file") := by
  simp [send_email_with_report, h]

/-- Witness for `creds_unset_no_send`: unset credentials, a failing network,
and a record whose email is valid. -/
theorem creds_unset_no_send_witness :
    (pyTruthy envNoCreds.sender_email && pyTruthy envNoCreds.sender_password) = false
    ∧ send_email_with_report envNoCreds (Except.error (str "net down")) pJane []
      = (false, str "Email credentials not configured in .env file") :=
  ⟨by decide,
   creds_unset_no_send envNoCreds (Except.error (str "net down")) pJane [] (by decide)⟩

/-- Claim C5, counterexample to the claim as stated: with credentials set and
an address failing the format predicate the function does return a
`(false, reason)` failure before any network attempt, but the reason string
is the source's literal "Invalid email format" (capital I), not the claimed
"invalid email format". -/
theorem invalid_email_message_cex :
    send_email_with_report envCreds (Except.ok ()) pBadEmail []
      = (false, str "Invalid email format")
    ∧ str "Invalid email format" ≠ str "invalid email format"
    ∧ validate_email (str "not-an-email") = false := by
  decide

/-- Claim C5 (amended): with transport credentials configured, every record
whose email fails the format predicate gets `(false, "Invalid email format")`
back, independently of the network behaviour `net` — the check precedes any
network attempt. -/
theorem invalid_email_no_send (env : Env) (net : Except Exn Unit) (p : Patient)
    (pdfBuf : List Block)
    (hc : (pyTruthy env.sender_email && pyTruthy env.sender_password) = true)
    (hv : validate_email p.email = false) :
    send_email_with_report env net p pdfBuf = (false, str "Invalid email format") := by
  simp [send_email_with_report, hc, hv]

/-- Witness for `invalid_email_no_send`: configured credentials, a failing
network, and the address "not-an-email". -/
theorem invalid_email_no_send_witness :
    (pyTruthy envCreds.sender_email && pyTruthy envCreds.sender_password) = true
    ∧ validate_email pBadEmail.email = false
    ∧ send_email_with_report envCreds (Except.error (str "net down")) pBadEmail []
      = (false, str "Invalid email format") :=
  ⟨by decide, by decide,
   invalid_email_no_send envCreds (Except.error (str "net down")) pBadEmail []
     (by decide) (by decide)⟩

/-- Claim C6: `generate_ai_report` is a total function — no exception ever
leaves it — and for every record and every behaviour of the external
generation call the result is text: the fixed unavailability sentinel when
the service is unconfigured, the returned text verbatim when the call
returns, and the in-band "Error generating AI report: ..." string when the
call raises. -/
theorem generate_never_raises (p : Patient) (model : Option GenModel) :
    (model = none
      ∧ generate_ai_report p model
        = str "AI service unavailable. Please configure GEMINI_API_KEY in your .env file.")
    ∨ (∃ m t, model = some m ∧ m (buildPrompt p) = Except.ok t
        ∧ generate_ai_report p model = t)
    ∨ (∃ m e, model = some m ∧ m (buildPrompt p) = Except.error e
        ∧ generate_ai_report p model = str "Error generating AI report: " ++ e) := by
  cases model with
  | none => exact Or.inl ⟨rfl, rfl⟩
  | some m =>
    rcases h : m (buildPrompt p) with e | t
    · exact Or.inr (Or.inr ⟨m, e, rfl, h, by simp [generate_ai_report, h]⟩)
    · exact Or.inr (Or.inl ⟨m, t, rfl, h, by simp [generate_ai_report, h]⟩)

theorem narrativeBlocks_countP (l : List (List Char)) :
    (narrativeBlocks l).countP isParaBlock = l.countP (fun s => !(pyStrip s).isEmpty) := by
  induction l with
  | nil => rfl
  | cons s t ih =>
    rw [narrativeBlocks, List.countP_cons]
    by_cases h : (pyStrip s).isEmpty
    · simp [h, ih]
    · have hb : (pyStrip s).isEmpty = false := by simpa using h
      simp [hb, List.countP_cons, isParaBlock, ih]

/-- Claim C7: `create_pdf_report` is total — it succeeds for every record
and every narrative text, the empty string included — and the number of
narrative paragraph blocks in the story equals the number of non-blank
segments obtained by splitting the text at the blank-line separator (the
source's `split` on two consecutive newlines, keeping segments whose strip
is non-empty); in particular the empty narrative yields zero paragraph
blocks, and the rendered story carries the record's id, name, age, email and
diagnosis literally in the patient-information table. -/
theorem render_paragraph_count (p : Patient) (t now : List Char) :
    (create_pdf_report p t now).countP isParaBlock
      = (pySplit2NL t).countP (fun s => !(pyStrip s).isEmpty)
    ∧ (create_pdf_report p (str "") now).countP isParaBlock = 0
    ∧ Block.table
        [(str "Patient ID:", p.patient_id), (str "Name:", p.name),
         (str "Age:", intStr p.age ++ str " years"), (str "Email:", p.email),
         (str "Diagnosis:", p.diagnosis), (str "Report Date:", now)]
      ∈ create_pdf_report p (str "") now := by
  have hgen : ∀ u : List Char, (create_pdf_report p u now).countP isParaBlock
      = (pySplit2NL u).countP (fun s => !(pyStrip s).isEmpty) := by
    intro u
    rw [create_pdf_report, List.countP_append, List.countP_append,
      narrativeBlocks_countP]
    simp [List.countP_cons, isParaBlock]
  refine ⟨hgen t, ?_, ?_⟩
  · rw [hgen (str "")]
    decide
  · simp [create_pdf_report]

/-- Claim C2: over a batch in which generation and rendering succeed for
every record and delivery returns (rather than raises) for every record,
let K be the number of records whose delivery returned `(False, reason)`:
the run ends with `error_count = K`, `success_count = N - K`, and a failure
list of exactly K entries — one `name: reason` pair per failing record — in
the original record order. -/
theorem bulk_counts_delivery_failures {Doc : Type}
    (g : Patient → Except Exn (List Char))
    (r : Patient → List Char → Except Exn Doc)
    (d : Patient → Doc → Except Exn (Bool × List Char)) (ps : List Patient)
    (H : ∀ p ∈ ps, ∃ b m, tryBody g r d p = Except.ok (b, m)) :
    (send_bulk_reports g r d ps).err = ps.countP (deliveryFailedB g r d)
    ∧ (send_bulk_reports g r d ps).succ
        = ps.length - ps.countP (deliveryFailedB g r d)
    ∧ (send_bulk_reports g r d ps).errors = ps.filterMap (failEntry g r d)
    ∧ (send_bulk_reports g r d ps).errors.length
        = ps.countP (deliveryFailedB g r d) := by
  have hcong : ∀ p ∈ ps, (!okTrueB g r d p) = true ↔ deliveryFailedB g r d p = true := by
    intro p hp
    rcases H p hp with ⟨b, m, hb⟩
    cases b <;> simp [okTrueB, deliveryFailedB, hb]
  have hcnt : ps.countP (fun q => !okTrueB g r d q) = ps.countP (deliveryFailedB g r d) :=
    List.countP_congr hcong
  have htot := countP_add_countP_not (okTrueB g r d) ps
  rw [send_bulk_reports_spec]
  dsimp only
  refine ⟨hcnt, by omega, rfl, ?_⟩
  rw [length_filterMap_failEntry, hcnt]

/-- Witness for `bulk_counts_delivery_failures`: three records, delivery
returning a failure for the middle one only. -/
theorem bulk_counts_delivery_failures_witness :
    (∀ p ∈ [pJane, pBob, pCara], ∃ b m,
        tryBody genOk renderOk deliverMixed p = Except.ok (b, m))
    ∧ ((send_bulk_reports genOk renderOk deliverMixed [pJane, pBob, pCara]).err
          = ([pJane, pBob, pCara] : List Patient).countP
              (deliveryFailedB genOk renderOk deliverMixed)
        ∧ (send_bulk_reports genOk renderOk deliverMixed [pJane, pBob, pCara]).succ
          = ([pJane, pBob, pCara] : List Patient).length
              - ([pJane, pBob, pCara] : List Patient).countP
                  (deliveryFailedB genOk renderOk deliverMixed)
        ∧ (send_bulk_reports genOk renderOk deliverMixed [pJane, pBob, pCara]).errors
          = ([pJane, pBob, pCara] : List Patient).filterMap
              (failEntry genOk renderOk deliverMixed)
        ∧ (send_bulk_reports genOk renderOk deliverMixed [pJane, pBob, pCara]).errors.length
          = ([pJane, pBob, pCara] : List Patient).countP
              (deliveryFailedB genOk renderOk deliverMixed)) :=
  have hH : ∀ p ∈ [pJane, pBob, pCara], ∃ b m,
      tryBody genOk renderOk deliverMixed p = Except.ok (b, m) := by
    intro p hp
    fin_cases hp
    · exact ⟨true, str "Email sent successfully", rfl⟩
    · exact ⟨false, str "Invalid email format", rfl⟩
    · exact ⟨true, str "Email sent successfully", rfl⟩
  ⟨hH, bulk_counts_delivery_failures genOk renderOk deliverMixed [pJane, pBob, pCara] hH⟩

/-- Claim C3: for every batch and every behaviour of the generation,
rendering and delivery calls — including any of them raising — the batch run
is a total function whose outcome accounts for every record exactly once
(successes plus counted failures equal the batch size, with one failure
entry per counted failure), and the single-record run is a total function
whose result is always one of the three reported outcome messages; no
exception crosses back to the caller of either. -/
theorem batch_swallows_all_failures {Doc : Type}
    (g : Patient → Except Exn (List Char))
    (r : Patient → List Char → Except Exn Doc)
    (d : Patient → Doc → Except Exn (Bool × List Char)) (ps : List Patient) :
    (send_bulk_reports g r d ps).succ + (send_bulk_reports g r d ps).err = ps.length
    ∧ (send_bulk_reports g r d ps).errors.length = (send_bulk_reports g r d ps).err
    ∧ ∀ p : Patient,
        send_individual_report g r d p = str "✅ Report sent successfully to " ++ p.name
        ∨ (∃ m, send_individual_report g r d p
            = str "❌ Failed to send report to " ++ p.name ++ str ": " ++ m)
        ∨ (∃ e, send_individual_report g r d p
            = str "❌ Error sending report to " ++ p.name ++ str ": " ++ e) := by
  rw [send_bulk_reports_spec]
  dsimp only
  refine ⟨countP_add_countP_not (okTrueB g r d) ps,
    length_filterMap_failEntry g r d ps, ?_⟩
  intro p
  rcases h : tryBody g r d p with e | ⟨b, m⟩
  · exact Or.inr (Or.inr ⟨e, by simp [send_individual_report, h]⟩)
  · cases b
    · exact Or.inr (Or.inl ⟨m, by simp [send_individual_report, h]⟩)
    · exact Or.inl (by simp [send_individual_report, h])

/-- Claim C8: in every batch run the progress callback fires exactly once
per record, in processing order, with completed-index over total taking
exactly the values 1..N in strictly increasing order — no skipped and no
repeated index, whatever the stage behaviours do. -/
theorem progress_once_per_record {Doc : Type}
    (g : Patient → Except Exn (List Char))
    (r : Patient → List Char → Except Exn Doc)
    (d : Patient → Doc → Except Exn (Bool × List Char)) (ps : List Patient) :
    (send_bulk_reports g r d ps).trace.filter isProgEv
      = (List.range ps.length).map (fun i => Ev.progress (i + 1) ps.length) := by
  rw [send_bulk_reports_spec]
  dsimp only
  rw [segments_filter_progress]
  apply List.map_congr_left
  intro i _
  congr 1
  omega

/-- Claim C9, counterexample to the claim as stated: in a two-record batch
whose first record raises during rendering, the first iteration contains no
delay event at all — `time.sleep(1)` sits inside the `try`, so a record
whose attempt raises skips the inter-item delay before the next record. -/
theorem delay_skipped_on_exception_cex :
    ¬ (∀ s ∈ segmentsOf genOk renderBoom deliverOk 2 0 ([pJane, pBob].dropLast),
        Ev.slept ∈ s) := by
  decide

/-- Claim C9 (amended): the batch trace is exactly the concatenation of the
per-iteration segments, and an iteration's segment contains the inter-item
delay exactly when the record's generate/render/deliver attempt completed
without raising (reported delivery failures included); when the attempt
raises, the delay is skipped for that record. -/
theorem delay_between_non_raising_records {Doc : Type}
    (g : Patient → Except Exn (List Char))
    (r : Patient → List Char → Except Exn Doc)
    (d : Patient → Doc → Except Exn (Bool × List Char)) (ps : List Patient) :
    (send_bulk_reports g r d ps).trace = (segmentsOf g r d ps.length 0 ps).flatten
    ∧ ∀ (total idx : Nat) (p : Patient),
        Ev.slept ∈ recordTrace g r d total idx p
          ↔ ∃ v, tryBody g r d p = Except.ok v := by
  refine ⟨by rw [send_bulk_reports_spec], ?_⟩
  intro total idx p
  rcases h : tryBody g r d p with e | v <;> simp [recordTrace, h]
